import Mathlib

/-!
Verification of the equation-dispatch, coupled-solve and Ridolfi (2021)
multi-equation selection core of `Thermobar/amphibole.py`.

The embedding follows the component boundaries of the design document:
the five candidate pressures (MPa), the 13-cation feature values and the
raw oxide columns are inputs of the classifier/gate (their arithmetic
bodies are declared out of scope there), while the dispatcher, the
fixed-point solver, the branch classifier and the validation gate are
translated statement by statement from the Python source.  Pandas/NumPy
NaN values are modelled as `Option.none`; a NaN comparison is false,
mirrored by `oLT`/`oGT` below.  Machine floats are modelled by `ℚ`: every
quantity the claims mention is produced by field operations and
comparisons, which the claims treat exactly.
-/

namespace Thermobar

/-! ## Branch classifier (amphibole.py lines 350-391) -/

/-- Per-sample body of the selection loop, amphibole.py lines 355-388:
the nested `if`/`elif` chain over the five candidate pressures (MPa)
`P_MPa_1a` .. `P_MPa_1e`, with `XPae = (a - e)/a` and `deltaPdb = d - b`
precomputed at lines 350-351.  Returns the selected pressure and the
label written into to the `name` array. -/
def ridolfiSelect (a b c d e : ℚ) : ℚ × String :=
  if b < 335 then (b, "1b")
  else if b < 399 then ((b + c) / 2, "(1b+1c)/2")
  else if c < 415 then (c, "1c")
  else if d < 470 then (c, "1c")
  else if (a - e) / a > 0.22 then ((c + d) / 2, "1c+1d")
  else if d - b > 350 then (e, "1e")
  else if d - b > 210 then (d, "1d")
  else if d - b < 75 then (c, "1c")
  else if (a - e) / a < -0.2 then ((b + c) / 2, "(1b+1c)/2")
  else if (a - e) / a > 0.05 then ((c + d) / 2, "(1c+1d)/2")
  else (a, "1a")

/-- First-match-wins evaluation of an ordered guarded-rule list; the
default is returned when no guard holds. -/
def firstMatch (rules : List (Bool × ℚ)) (dflt : ℚ) : ℚ :=
  match rules with
  | [] => dflt
  | (g, v) :: rest => if g then v else firstMatch rest dflt

/-- The guarded rules 1-10 of the documented selection procedure
(spec section 4.4), transcribed from the SPEC text, in the documented
order; rule 11 is the default of `firstMatch`.  Used to state that the
source classifier refines the documented procedure. -/
def specRules (a b c d e : ℚ) : List (Bool × ℚ) :=
  [ (decide (b < 335), b),
    (decide (b < 399), (b + c) / 2),
    (decide (c < 415), c),
    (decide (d < 470), c),
    (decide ((a - e) / a > 0.22), (c + d) / 2),
    (decide (d - b > 350), e),
    (decide (d - b > 210), d),
    (decide (d - b < 75), c),
    (decide ((a - e) / a < -0.2), (b + c) / 2),
    (decide ((a - e) / a > 0.05), (c + d) / 2) ]

/-- The documented selection procedure: first matching rule wins,
rule 11 selects `a`. -/
def specSelectP (a b c d e : ℚ) : ℚ :=
  firstMatch (specRules a b c d e) a

/-! ## Validation gate machinery (amphibole.py lines 434-492) -/

/-- One gate check: a boolean predicate over the per-sample derived
quantities plus the failure message it writes. -/
structure GateCheck (α : Type) where
  fires : α → Bool
  msg : String

/-- Sequential evaluation of an ordered check list, mirroring the chain
of `Calcs_R.loc[mask, 'Input_Check'] = False` /
`Calcs_R.loc[mask, 'Fail Msg'] = ...` statements: the state starts at
`(True, "")` (lines 435-436) and every firing check overwrites both. -/
def runChecks {α : Type} (cs : List (GateCheck α)) (s : α) : Bool × String :=
  cs.foldl (fun st c => if c.fires s then (false, c.msg) else st) (true, "")

/-- Messages of the checks that fire on a sample, in evaluation order. -/
def failMsgs {α : Type} (cs : List (GateCheck α)) (s : α) : List String :=
  (cs.filter (fun c => c.fires s)).map (fun c => c.msg)

/-- Message of the last failing check ("" when none fails). -/
def lastFailMsg {α : Type} (cs : List (GateCheck α)) (s : α) : String :=
  (failMsgs cs s).getLastD ""

/-! ## Per-sample data of the P_Ridolfi2021 path -/

/-- Per-sample inputs of the P_Ridolfi2021 branch: the five candidate
pressures `P_MPa_1a..1e` (lines 341-345; their exponential bodies are
out-of-scope arithmetic), the 13-cation feature columns from
`calculate_13cations_amphibole_ridolfi` (line 325), the raw oxide
columns used at lines 427-431, and the per-sample oxide total
`Sum_input` (line 328). -/
structure RidolfiSample where
  P_MPa_1a : ℚ
  P_MPa_1b : ℚ
  P_MPa_1c : ℚ
  P_MPa_1d : ℚ
  P_MPa_1e : ℚ
  SiO2_Amp_13_cat : ℚ
  TiO2_Amp_13_cat : ℚ
  Al2O3_Amp_13_cat : ℚ
  Cr2O3_Amp_13_cat : ℚ
  FeOt_Amp_13_cat : ℚ
  MnO_Amp_13_cat : ℚ
  MgO_Amp_13_cat : ℚ
  CaO_Amp_13_cat : ℚ
  Na2O_Amp_13_cat : ℚ
  K2O_Amp_13_cat : ℚ
  F_Amp_13_cat : ℚ
  Cl_Amp_13_cat : ℚ
  cation_sum_Si_Mg : ℚ
  FeOt_Amp : ℚ
  F_Amp : ℚ
  Cl_Amp : ℚ
  Sum_input : ℚ

/-- `Charge`, line 403-405. -/
def Charge (s : RidolfiSample) : ℚ :=
  s.SiO2_Amp_13_cat * 4 + s.TiO2_Amp_13_cat * 4 + s.Al2O3_Amp_13_cat * 3 +
  s.Cr2O3_Amp_13_cat * 3 + s.FeOt_Amp_13_cat * 2 + s.MnO_Amp_13_cat * 2 +
  s.MgO_Amp_13_cat * 2 + s.CaO_Amp_13_cat * 2 + s.Na2O_Amp_13_cat + s.K2O_Amp_13_cat

/-- `H2O_calc`, lines 400-401: set to NaN (`none`) for low-sum samples. -/
def H2O_calc (s : RidolfiSample) : Option ℚ :=
  if s.Sum_input < 90 then none
  else some ((2 - s.F_Amp_13_cat - s.Cl_Amp_13_cat) * s.cation_sum_Si_Mg * 17 / 13 / 2)

/-- `Fe3_calc`, lines 414-416: `46 - Charge`, clamped to 0 when `Charge > 46`. -/
def Fe3_calc (s : RidolfiSample) : ℚ :=
  if Charge s > 46 then 0 else 46 - Charge s

/-- `Fe2_calc`, line 418. -/
def Fe2_calc (s : RidolfiSample) : ℚ :=
  s.FeOt_Amp_13_cat - Fe3_calc s

/-- `Fe2O3_calc`, lines 421-422: NaN for low-sum samples. -/
def Fe2O3_calc (s : RidolfiSample) : Option ℚ :=
  if s.Sum_input < 90 then none
  else some (Fe3_calc s * s.cation_sum_Si_Mg * 159.691 / 13 / 2)

/-- `FeO_calc`, line 424 (line 425 re-clears `Fe2O3_calc`, not this
column, so `FeO_calc` itself is never cleared). -/
def FeO_calc (s : RidolfiSample) : ℚ :=
  Fe2_calc s * s.cation_sum_Si_Mg * 71.846 / 13

/-- The `O=F,Cl` column, lines 427-428: NaN for low-sum samples. -/
def OFCl_calc (s : RidolfiSample) : Option ℚ :=
  if s.Sum_input < 90 then none
  else some (-(s.F_Amp * 0.421070639014633 + s.Cl_Amp * 0.225636758525372))

/-- `Total_recalc`, lines 430-431: NaN as soon as one addend is NaN. -/
def Total_recalc (s : RidolfiSample) : Option ℚ :=
  match H2O_calc s, Fe2O3_calc s, OFCl_calc s with
  | some h, some f3, some o =>
      some (s.Sum_input - s.FeOt_Amp + h + f3 + FeO_calc s + o)
  | _, _, _ => none

/-- `Mgno_Fe2`, line 465. -/
def Mgno_Fe2 (s : RidolfiSample) : ℚ :=
  s.MgO_Amp_13_cat / (s.MgO_Amp_13_cat + Fe2_calc s)

/-- `Na_calc`, lines 485-487: `2 - Ca`, replaced by `Na` when `Na < 2 - Ca`. -/
def Na_calc (s : RidolfiSample) : ℚ :=
  if s.Na2O_Amp_13_cat < 2 - s.CaO_Amp_13_cat then s.Na2O_Amp_13_cat
  else 2 - s.CaO_Amp_13_cat

/-- `B_Sum`, line 488. -/
def B_Sum (s : RidolfiSample) : ℚ :=
  Na_calc s + s.CaO_Amp_13_cat

/-- NaN-aware `<`: a NaN (`none`) comparison is false, as in NumPy. -/
def oLT (o : Option ℚ) (q : ℚ) : Bool :=
  match o with
  | some v => decide (v < q)
  | none => false

/-- NaN-aware `>`: a NaN (`none`) comparison is false, as in NumPy. -/
def oGT (o : Option ℚ) (q : ℚ) : Bool :=
  match o with
  | some v => decide (v > q)
  | none => false

/-- The validation-gate checks of amphibole.py lines 438-492 in source
order.  (The `APE > 60` assignments at lines 409-411 write the two
columns before they are re-created whole at lines 435-436, so they have
no effect on the final state and are not part of the effective check
sequence.) -/
def ridolfiChecks : List (GateCheck RidolfiSample) :=
  [ ⟨fun s => decide (s.Sum_input < 90), "Cation oxide Total<90"⟩,
    ⟨fun s => oLT (Total_recalc s) 98.5, "Recalc Total<98.5"⟩,
    ⟨fun s => oGT (Total_recalc s) 102, "Recalc Total>102"⟩,
    ⟨fun s => decide (Charge s > 46.5), "unbalanced charge (>46.5)"⟩,
    ⟨fun s => decide (Fe2_calc s < 0), "unbalanced charge (Fe2<0)"⟩,
    ⟨fun s => decide (100 * Mgno_Fe2 s < 54), "Low Mg# (<54)"⟩,
    ⟨fun s => decide (s.CaO_Amp_13_cat < 1.5), "Low Ca (<1.5)"⟩,
    ⟨fun s => decide (s.CaO_Amp_13_cat > 2.05), "High Ca (>2.05)"⟩,
    ⟨fun s => decide (B_Sum s < 1.99), "Low B Cations"⟩ ]

/-- The validation gate run on one sample: final `(Input_Check, Fail Msg)`. -/
def runGate (s : RidolfiSample) : Bool × String :=
  runChecks ridolfiChecks s

/-- Per-sample result of the P_Ridolfi2021 path (lines 347-497):
classifier selection with low-sum override to NaN (lines 355-390),
`P_kbar_calc = P_MPa / 100` (line 396), gate (lines 434-492), and the
final clearing of `P_kbar_calc` for failed samples (lines 496-497).
Returns `(P_kbar_calc, equation label, Input_Check, Fail Msg)`. -/
def ridolfiPressSample (s : RidolfiSample) :
    Option ℚ × String × Bool × String :=
  let r := ridolfiSelect s.P_MPa_1a s.P_MPa_1b s.P_MPa_1c s.P_MPa_1d s.P_MPa_1e
  let pMPa : Option ℚ := if s.Sum_input < 90 then none else some r.1
  let g := runGate s
  let pKbar : Option ℚ := if g.1 then pMPa.map (fun p => p / 100) else none
  (pKbar, r.2, g.1, g.2)

/-! ## The Ridolfi2012 / Ridolfi2021 branch as a whole (lines 323-602) -/

/-- Python runtime error raised by the branch itself. -/
inductive PyRunErr
  | nameErr
deriving DecidableEq

/-- The `'Ridolfi2012' in equationP or equationP == "P_Ridolfi2021"`
branch of `calculate_amp_only_press` (lines 323-602), over the
per-sample inputs.  The locals `P_MPa` and `name` are assigned only
inside the `if equationP == "P_Ridolfi2021"` block (lines 347-390); for
the five individual `P_Ridolfi2012_1a..1e` identifiers control reaches
the unconditional read `Calcs_R['P_kbar_calc'] = P_MPa / 100` at line
396 with `P_MPa` never assigned, raising a NameError (`.nameErr`).  The
`return Calcs_R` at line 582 is unconditional, so the five per-identifier
`return P_MPa_1x / 100` statements at lines 584-602 are not part of any
execution path and do not appear here. -/
def ridolfi2012_branch (equationP : String) (samples : List RidolfiSample) :
    Except PyRunErr (List (Option ℚ × String × Bool × String)) :=
  if equationP = "P_Ridolfi2021" then
    .ok (samples.map ridolfiPressSample)
  else
    .error .nameErr

/-! ## Dispatcher (lines 276-293 and 606-619; same shape at 799-844) -/

/-- An equation descriptor: whether the dependent unknown `T` is a
required argument (`sig.parameters['T'].default is not None` in the
source, i.e. no `T=None` default), and the per-sample body applied to
the optional dependent value and the sample's feature row. -/
structure Eqn (α : Type) where
  requiresT : Bool
  body : Option ℚ → α → ℚ

/-- The dependent-variable argument of a dispatch call: `None`, the
literal marker `"Solve"`, a scalar, or a per-sample series. -/
inductive TInput
  | absent
  | solveMarker
  | scalar (x : ℚ)
  | series (xs : List ℚ)
deriving DecidableEq

/-- A concrete numeric argument handed to a deferred evaluator: a
scalar (broadcast over samples) or a per-sample vector. -/
inductive NumArg
  | scalar (x : ℚ)
  | vec (xs : List ℚ)
deriving DecidableEq

/-- Structural dispatch errors (spec section 7). -/
inductive DispatchErr
  | unknownEquation
  | missingDependent
  | lengthMismatch
deriving DecidableEq

/-- Result of a dispatch call: an immediately computed vector, or the
deferred evaluator `partial(func, **kwargs)` awaiting the dependent
value. -/
inductive DispatchOut
  | val (v : List ℚ)
  | fn (f : NumArg → List ℚ)

/-- Evaluation of an equation body over all rows at a concrete
dependent value, scalar arguments broadcast, vectors aligned
positionally (`func(T, **kwargs)` with pandas columns). -/
def broadcastEval {α : Type} (eq : Eqn α) (rows : List α) : NumArg → List ℚ
  | .scalar x => rows.map (eq.body (some x))
  | .vec xs => List.zipWith (fun x r => eq.body (some x) r) xs rows

/-- The series length check of lines 290-293: fires only for a
per-sample series whose length differs from the table's row count. -/
def lengthBad {α : Type} (rows : List α) : TInput → Bool
  | .series xs => decide (xs.length ≠ rows.length)
  | _ => false

/-- The generic dispatch path of `calculate_amp_only_press`
(lines 276-293 and 606-619; `calculate_amp_only_temp` lines 799-844 is
the same logic with `P` in place of `T`): registry lookup, the
missing-dependent check, the series length check, then the calling-mode
branch at lines 610-617 (`"Solve"` returns the partial application,
`None` calls the body without a dependent value, a concrete value is
evaluated directly).  Supplying a value to an equation that does not
require one only prints an advisory message (line 288), which carries
no state and is not modelled. -/
def evaluate {α : Type} (reg : String → Option (Eqn α)) (id : String)
    (rows : List α) (T : TInput) : Except DispatchErr DispatchOut :=
  match reg id with
  | Option.none => .error .unknownEquation
  | some eq =>
    if eq.requiresT = true ∧ T = TInput.absent then .error .missingDependent
    else if lengthBad rows T then .error .lengthMismatch
    else
      match T with
      | .solveMarker => .ok (.fn (broadcastEval eq rows))
      | .absent => .ok (.val (rows.map (eq.body Option.none)))
      | .scalar x => .ok (.val (broadcastEval eq rows (.scalar x)))
      | .series xs => .ok (.val (broadcastEval eq rows (.vec xs)))

/-! ### Registered equations with rational-arithmetic bodies

These are the amphibole-only barometers of the source whose bodies are
exact rational expressions in the single feature `Al2O3_Amp_cat_23ox`
(the `exp`-based bodies are out-of-scope real arithmetic; dispatch
treats every registered equation uniformly). -/

/-- Hammerstrom and Zen (1986), eq. 1 (source lines 91-95). -/
def P_Hammerstrom1986_eq1 (Al2O3_Amp_cat_23ox : ℚ) : ℚ :=
  -3.92 + 5.03 * Al2O3_Amp_cat_23ox

/-- Hollister et al. (1987) (source lines 112-116). -/
def P_Hollister1987 (Al2O3_Amp_cat_23ox : ℚ) : ℚ :=
  -4.76 + 5.64 * Al2O3_Amp_cat_23ox

/-- Johnson and Rutherford (1989) (source lines 119-123). -/
def P_Johnson1989 (Al2O3_Amp_cat_23ox : ℚ) : ℚ :=
  -3.46 + 4.23 * Al2O3_Amp_cat_23ox

/-- Blundy et al. (1990) (source lines 134-138). -/
def P_Blundy1990 (Al2O3_Amp_cat_23ox : ℚ) : ℚ :=
  5.03 * Al2O3_Amp_cat_23ox - 3.53

/-- Schmidt (1992) (source lines 141-145). -/
def P_Schmidt1992 (Al2O3_Amp_cat_23ox : ℚ) : ℚ :=
  -3.01 + 4.76 * Al2O3_Amp_cat_23ox

/-- Anderson and Smith (1995), the T-dependent barometer
(source lines 126-131). -/
def P_Anderson1995 (T Al2O3_Amp_cat_23ox : ℚ) : ℚ :=
  4.76 * Al2O3_Amp_cat_23ox - 3.01 -
    (((T - 273.15 - 675) / 85) *
      (0.53 * Al2O3_Amp_cat_23ox + 0.005294 * (T - 273.15 - 675)))

/-- Descriptor of `P_Hammerstrom1986_eq1` (`T=None` default: not
required, ignored by the body). -/
def hammerstrom1986_eq1_eqn : Eqn ℚ :=
  ⟨false, fun _ al => P_Hammerstrom1986_eq1 al⟩

/-- Descriptor of `P_Hollister1987`. -/
def hollister1987_eqn : Eqn ℚ :=
  ⟨false, fun _ al => P_Hollister1987 al⟩

/-- Descriptor of `P_Johnson1989`. -/
def johnson1989_eqn : Eqn ℚ :=
  ⟨false, fun _ al => P_Johnson1989 al⟩

/-- Descriptor of `P_Blundy1990`. -/
def blundy1990_eqn : Eqn ℚ :=
  ⟨false, fun _ al => P_Blundy1990 al⟩

/-- Descriptor of `P_Schmidt1992`. -/
def schmidt1992_eqn : Eqn ℚ :=
  ⟨false, fun _ al => P_Schmidt1992 al⟩

/-- Descriptor of `P_Anderson1995`: `T` is a required positional
argument.  The `Option.none` case is unreachable through `evaluate`
(the missing-dependent check fires first, as the missing required
positional would in Python). -/
def anderson1995_eqn : Eqn ℚ :=
  ⟨true, fun t al =>
    match t with
    | some T => P_Anderson1995 T al
    | Option.none => 0⟩

/-- The rational-arithmetic fragment of `Amp_only_P_funcs_by_name`
(source lines 151-155), keyed by the source identifiers. -/
def Amp_only_P_funcs_by_name : String → Option (Eqn ℚ) := fun id =>
  if id = "P_Hammerstrom1986_eq1" then some hammerstrom1986_eq1_eqn
  else if id = "P_Hollister1987" then some hollister1987_eqn
  else if id = "P_Johnson1989" then some johnson1989_eqn
  else if id = "P_Blundy1990" then some blundy1990_eqn
  else if id = "P_Schmidt1992" then some schmidt1992_eqn
  else if id = "P_Anderson1995" then some anderson1995_eqn
  else Option.none

/-! ## Coupled fixed-point solver (`calculate_amp_only_press_temp`,
lines 849-930) -/

/-- One resolved side of the coupled solve: either a concrete
per-sample vector (a `pd.Series`) or a deferred evaluator (a
`functools.partial`). -/
inductive PTSide
  | val (v : List ℚ)
  | fn (f : NumArg → List ℚ)

/-- One round of the loop at lines 924-926:
`P_guess = P_func(T_K_guess); T_K_guess = T_func(P_guess)`.  The first
state component is the last assigned `P_guess` (`none` before the first
round: the Python local is unbound). -/
def ptLoopStep (pf tf : NumArg → List ℚ) (st : Option (List ℚ) × NumArg) :
    Option (List ℚ) × NumArg :=
  let p := pf st.2
  (some p, NumArg.vec (tf (NumArg.vec p)))

/-- The core of `calculate_amp_only_press_temp` (lines 905-930) after
both sides have been resolved: the four type-dispatch statements at
lines 910-926 (the series/partial cases are mutually exclusive, so the
sequential `if`s form a case split), followed by the construction of
the output pair at line 929.  In the both-deferred case the loop runs
`for _ in range(iterations)` with no convergence test; with
`iterations = 0` the read of the unbound `P_guess` at line 929 raises,
modelled by `none`. -/
def calculate_amp_only_press_temp (T_func P_func : PTSide)
    (iterations : ℕ) (T_K_guess : NumArg) : Option (List ℚ × List ℚ) :=
  match T_func, P_func with
  | .val tv, .val pv => some (pv, tv)
  | .val tv, .fn pf => some (pf (NumArg.vec tv), tv)
  | .fn tf, .val pv => some (pv, tf (NumArg.vec pv))
  | .fn tf, .fn pf =>
    let st := (List.range iterations).foldl
      (fun st _ => ptLoopStep pf tf st)
      ((Option.none : Option (List ℚ)), T_K_guess)
    match st with
    | (some p, NumArg.vec t) => some (p, t)
    | _ => Option.none

/-- Default `iterations` of `calculate_amp_only_press_temp` (line 849). -/
def iterations_default : ℕ := 30

/-- Default `T_K_guess` of `calculate_amp_only_press_temp` (line 849). -/
def T_K_guess_default : ℚ := 1300

/-- The documented algorithm's temperature sequence (spec section 4.3):
`T_0` is the initial guess and
`T_{n+1} = T_deferred(P_deferred(T_n))`. -/
def specT_seq (pf tf : NumArg → List ℚ) (g : NumArg) : ℕ → NumArg
  | 0 => g
  | n + 1 => NumArg.vec (tf (NumArg.vec (pf (specT_seq pf tf g n))))

/-- The documented algorithm's pressure sequence:
`P_{n+1} = P_deferred(T_n)` (indexed here by `n`). -/
def specP_seq (pf tf : NumArg → List ℚ) (g : NumArg) (n : ℕ) : List ℚ :=
  pf (specT_seq pf tf g n)

/-! ## Concrete samples used by the witnesses -/

/-- A sample whose oxide total is below 90 (all other quantities
benign). -/
def sampleLowSum : RidolfiSample :=
  ⟨300, 300, 420, 480, 500, 6, 1, 2, 0, 2, 0, 2, 2, 1, 1, 0, 0, 13, 10, 0, 0, 80⟩

/-- A benign sample for the C10 witness. -/
def sampleBenign : RidolfiSample :=
  ⟨300, 300, 420, 480, 500, 6, 1, 2, 0, 2, 0, 2, 2, 1, 1, 0, 0, 13, 10, 0, 0, 95⟩

/-! ## Helper lemmas -/

/-- The fold of an ordered check list: the final message is the message
of the last firing check, or the initial message when none fires. -/
lemma runChecks_go_snd {α : Type} (s : α) :
    ∀ (cs : List (GateCheck α)) (st : Bool × String),
      (cs.foldl (fun st c => if c.fires s then (false, c.msg) else st) st).2
        = (failMsgs cs s).getLastD st.2 := by
  intro cs
  induction cs with
  | nil => intro st; simp [failMsgs]
  | cons c cs ih =>
    intro st
    by_cases h : c.fires s
    · simp only [List.foldl_cons, h, if_pos, failMsgs, List.filter_cons_of_pos,
        List.map_cons, List.getLastD_cons]
      simpa [failMsgs] using ih (false, c.msg)
    · simp only [List.foldl_cons, h, if_neg, failMsgs, List.filter_cons_of_neg,
        Bool.false_eq_true, not_false_iff]
      simpa [failMsgs] using ih st

/-- The fold of an ordered check list: the final flag is the initial
flag conjoined with "no check fires". -/
lemma runChecks_go_fst {α : Type} (s : α) :
    ∀ (cs : List (GateCheck α)) (st : Bool × String),
      (cs.foldl (fun st c => if c.fires s then (false, c.msg) else st) st).1
        = (st.1 && !(cs.any fun c => c.fires s)) := by
  intro cs
  induction cs with
  | nil => intro st; simp
  | cons c cs ih =>
    intro st
    by_cases h : c.fires s
    · simp [List.foldl_cons, h, ih (false, c.msg)]
    · simp [List.foldl_cons, h, ih st]

/-- A zipWith whose function ignores its first argument is a map, at
equal lengths. -/
lemma zipWith_of_ignores {α : Type} (f : ℚ → α → ℚ) (g : α → ℚ)
    (hfg : ∀ x r, f x r = g r) :
    ∀ (xs : List ℚ) (rows : List α), xs.length = rows.length →
      List.zipWith f xs rows = rows.map g := by
  intro xs
  induction xs with
  | nil =>
    intro rows h
    cases rows with
    | nil => simp
    | cons r rows => simp at h
  | cons x xs ih =>
    intro rows h
    cases rows with
    | nil => simp at h
    | cons r rows =>
      simp only [List.zipWith_cons_cons, List.map_cons, hfg, List.cons.injEq,
        true_and]
      exact ih rows (by simpa using h)

/-- Unrolling of the solver loop: after `n + 1` rounds the state holds
exactly the documented sequences. -/
lemma ptFold_succ (pf tf : NumArg → List ℚ) (g : NumArg) :
    ∀ n : ℕ,
      (List.range (n + 1)).foldl (fun st _ => ptLoopStep pf tf st)
          ((Option.none : Option (List ℚ)), g)
        = (some (specP_seq pf tf g n), specT_seq pf tf g (n + 1)) := by
  intro n
  induction n with
  | zero => simp [List.range_succ, ptLoopStep, specP_seq, specT_seq]
  | succ k ih =>
    rw [List.range_succ, List.foldl_append, ih]
    simp [ptLoopStep, specP_seq, specT_seq]

/-! ## Claim theorems -/

/-- C1: for every sample, the pressure selected by the P_Ridolfi2021
classifier equals first-match-wins evaluation of the 11 documented
rules in the documented order (rules 1-10 guarded, rule 11 the
default). -/
theorem C1_classifier_first_match_order (a b c d e : ℚ) :
    (ridolfiSelect a b c d e).1 = specSelectP a b c d e := by
  unfold ridolfiSelect specSelectP specRules
  simp only [firstMatch, decide_eq_true_eq, apply_ite Prod.fst]

/-- C2: with both sides deferred, the solver runs exactly the given
number of alternating rounds `P := P_deferred(T); T := T_deferred(P)`
from the initial guess, with no convergence test, and returns the last
pair; the defaults are 30 iterations and a 1300 K guess. -/
theorem C2_solver_fixed_budget (pf tf : NumArg → List ℚ) (g : NumArg) (n : ℕ) :
    calculate_amp_only_press_temp (.fn tf) (.fn pf) (n + 1) g
        = some (specP_seq pf tf g n, tf (NumArg.vec (specP_seq pf tf g n)))
    ∧ iterations_default = 30 ∧ T_K_guess_default = 1300 := by
  refine ⟨?_, rfl, rfl⟩
  simp [calculate_amp_only_press_temp, ptFold_succ pf tf g n, specT_seq, specP_seq]

/-- C3: for a registered equation requiring the dependent variable, the
`"Solve"` marker returns a deferred evaluator whose value at any
concrete scalar, or any series of matching length, is exactly the
direct evaluation at that value. -/
theorem C3_solve_marker_deferred {α : Type} (reg : String → Option (Eqn α))
    (id : String) (rows : List α) (eq : Eqn α)
    (hreg : reg id = some eq) (_hreq : eq.requiresT = true) :
    ∃ f, evaluate reg id rows TInput.solveMarker = .ok (.fn f)
      ∧ (∀ x : ℚ,
          evaluate reg id rows (TInput.scalar x) = .ok (.val (f (NumArg.scalar x))))
      ∧ ∀ xs : List ℚ, xs.length = rows.length →
          evaluate reg id rows (TInput.series xs) = .ok (.val (f (NumArg.vec xs))) := by
  refine ⟨broadcastEval eq rows, ?_, ?_, ?_⟩
  · simp [evaluate, hreg, lengthBad]
  · intro x
    simp [evaluate, hreg, lengthBad]
  · intro xs hlen
    simp [evaluate, hreg, lengthBad, hlen]

/-- Witness for C3 at the T-dependent `P_Anderson1995` on a one-row
table. -/
theorem C3_solve_marker_deferred_witness :
    ∃ f, evaluate Amp_only_P_funcs_by_name "P_Anderson1995" [(2 : ℚ)]
        TInput.solveMarker = .ok (.fn f)
      ∧ (∀ x : ℚ,
          evaluate Amp_only_P_funcs_by_name "P_Anderson1995" [(2 : ℚ)]
            (TInput.scalar x) = .ok (.val (f (NumArg.scalar x))))
      ∧ ∀ xs : List ℚ, xs.length = [(2 : ℚ)].length →
          evaluate Amp_only_P_funcs_by_name "P_Anderson1995" [(2 : ℚ)]
            (TInput.series xs) = .ok (.val (f (NumArg.vec xs))) :=
  C3_solve_marker_deferred Amp_only_P_funcs_by_name "P_Anderson1995" [2]
    anderson1995_eqn (by simp [Amp_only_P_funcs_by_name]) rfl

/-- C4: in the P_Ridolfi2021 path, a sample whose oxide total is below
90, or whose validation gate fails, ends with an undefined (NaN) final
pressure, whichever classifier rule fired and whichever check failed. -/
theorem C4_low_sum_or_fail_undefined (s : RidolfiSample)
    (h : s.Sum_input < 90 ∨ (runGate s).1 = false) :
    (ridolfiPressSample s).1 = none := by
  unfold ridolfiPressSample
  rcases h with h | h
  · simp [h]
  · simp [h]

/-- Witness for C4: a concrete sample with oxide total 80. -/
theorem C4_low_sum_or_fail_undefined_witness :
    (sampleLowSum.Sum_input < 90 ∨ (runGate sampleLowSum).1 = false)
    ∧ (ridolfiPressSample sampleLowSum).1 = none :=
  ⟨Or.inl (by norm_num [sampleLowSum]),
   C4_low_sum_or_fail_undefined sampleLowSum (Or.inl (by norm_num [sampleLowSum]))⟩

/-- C5: the validation gate evaluates its nine checks in the fixed
source order (low oxide total; low/high recomputed total; unbalanced
charge; negative ferrous iron; low Mg-number; low/high Ca; low B-site
sum); the final reason is the message of the LAST failing check, and
the flag fails exactly when some check fails. -/
theorem C5_gate_last_failure_wins (s : RidolfiSample) :
    (runGate s).2 = lastFailMsg ridolfiChecks s
    ∧ ((runGate s).1 = false ↔ failMsgs ridolfiChecks s ≠ [])
    ∧ ridolfiChecks.map GateCheck.msg =
        ["Cation oxide Total<90", "Recalc Total<98.5", "Recalc Total>102",
         "unbalanced charge (>46.5)", "unbalanced charge (Fe2<0)",
         "Low Mg# (<54)", "Low Ca (<1.5)", "High Ca (>2.05)", "Low B Cations"] := by
  refine ⟨?_, ?_, rfl⟩
  · exact runChecks_go_snd s ridolfiChecks (true, "")
  · have h1 : (runGate s).1 = !(ridolfiChecks.any fun c => c.fires s) :=
      runChecks_go_fst s ridolfiChecks (true, "")
    rw [h1]
    simp only [failMsgs, ne_eq, List.map_eq_nil_iff, Bool.not_eq_false,
      List.any_eq_true, List.filter_eq_nil_iff]
    push_neg
    simp [List.any_eq_true]

/-- C6 counterexample: on candidates hitting rule 5 the classifier
records the label "1c+1d", which is not among the seven documented
labels (rule 5 does NOT share rule 10's label "(1c+1d)/2"). -/
theorem C6_seven_labels_counterexample :
    (ridolfiSelect 100 400 420 480 0).2 = "1c+1d"
    ∧ "1c+1d" ∉
        (["1b", "(1b+1c)/2", "1c", "(1c+1d)/2", "1d", "1e", "1a"] : List String) := by
  constructor
  · norm_num [ridolfiSelect]
  · simp

set_option maxHeartbeats 1000000 in
/-- C6 amended: the classifier label is one of exactly EIGHT values:
rule 5 records "1c+1d", distinct from rule 10's "(1c+1d)/2", alongside
the labels for b, (b+c)/2, c, d, e and a. -/
theorem C6_eight_labels (a b c d e : ℚ) :
    (ridolfiSelect a b c d e).2 ∈
      (["1b", "(1b+1c)/2", "1c", "1c+1d", "1e", "1d", "(1c+1d)/2", "1a"] :
        List String) := by
  unfold ridolfiSelect
  split_ifs <;> simp

/-- C7: if either side of the coupled solve is already a concrete
vector, no iteration runs: the result is a single evaluation of the
remaining deferred side (if any), independent of the iteration budget
and of the initial guess. -/
theorem C7_concrete_side_short_circuit (pv tv : List ℚ)
    (pf tf : NumArg → List ℚ) (n m : ℕ) (g g2 : NumArg) :
    calculate_amp_only_press_temp (.val tv) (.val pv) n g = some (pv, tv)
    ∧ calculate_amp_only_press_temp (.val tv) (.fn pf) n g
        = some (pf (NumArg.vec tv), tv)
    ∧ calculate_amp_only_press_temp (.fn tf) (.val pv) n g
        = some (pv, tf (NumArg.vec pv))
    ∧ calculate_amp_only_press_temp (.fn tf) (.val pv) n g
        = calculate_amp_only_press_temp (.fn tf) (.val pv) m g2 :=
  ⟨rfl, rfl, rfl, rfl⟩

/-- C8 counterexample: for the T-independent `P_Hollister1987` on a
one-row table, supplying the dependent value as a two-entry series is
fatal (LengthMismatch), not ignored, so the output differs from the
omitted-value call. -/
theorem C8_ignored_value_counterexample :
    evaluate Amp_only_P_funcs_by_name "P_Hollister1987" [(2 : ℚ)]
        (TInput.series [1, 1]) = .error .lengthMismatch
    ∧ evaluate Amp_only_P_funcs_by_name "P_Hollister1987" [(2 : ℚ)]
        TInput.absent = .ok (.val [P_Hollister1987 2])
    ∧ (Except.error DispatchErr.lengthMismatch :
        Except DispatchErr DispatchOut) ≠ .ok (.val [P_Hollister1987 2]) := by
  refine ⟨?_, ?_, ?_⟩ <;>
    simp [evaluate, Amp_only_P_funcs_by_name, lengthBad, hollister1987_eqn]

/-- C8 amended: for every registered equation not requiring the
dependent variable, dispatch ignores a supplied concrete dependent
value that is a scalar or a series of matching length, producing output
identical to the omitted-value call (the supplied value only triggers
an advisory print); a wrong-length series still fails with
LengthMismatch. -/
theorem C8_ignored_value_amended (id : String) (eq : Eqn ℚ) (rows : List ℚ)
    (x : ℚ) (xs : List ℚ)
    (hreg : Amp_only_P_funcs_by_name id = some eq)
    (hreq : eq.requiresT = false) (hlen : xs.length = rows.length) :
    evaluate Amp_only_P_funcs_by_name id rows (TInput.scalar x)
      = evaluate Amp_only_P_funcs_by_name id rows TInput.absent
    ∧ evaluate Amp_only_P_funcs_by_name id rows (TInput.series xs)
      = evaluate Amp_only_P_funcs_by_name id rows TInput.absent := by
  have hig : ∀ t r, eq.body t r = eq.body Option.none r := by
    have hreg2 := hreg
    unfold Amp_only_P_funcs_by_name at hreg2
    split_ifs at hreg2 <;>
      simp only [Option.some.injEq] at hreg2 <;>
      first
        | (subst hreg2; simp [anderson1995_eqn] at hreq)
        | (subst hreg2; intro t r; rfl)
  have hbody : eq.body (some x) = eq.body Option.none :=
    funext fun r => hig (some x) r
  constructor
  · simp [evaluate, hreg, lengthBad, broadcastEval, hbody, hreq]
  · simp only [evaluate, hreg, lengthBad, broadcastEval]
    have hz := zipWith_of_ignores (fun x r => eq.body (some x) r)
      (eq.body Option.none) (fun x r => hig (some x) r) xs rows hlen
    simp [hz, hlen, hreq]

/-- Witness for C8 amended at `P_Hollister1987`, one row, scalar 7 and
the one-entry series [3]. -/
theorem C8_ignored_value_amended_witness :
    (Amp_only_P_funcs_by_name "P_Hollister1987" = some hollister1987_eqn)
    ∧ hollister1987_eqn.requiresT = false
    ∧ ([(3 : ℚ)] : List ℚ).length = ([(2 : ℚ)] : List ℚ).length
    ∧ (evaluate Amp_only_P_funcs_by_name "P_Hollister1987" [(2 : ℚ)]
          (TInput.scalar 7)
        = evaluate Amp_only_P_funcs_by_name "P_Hollister1987" [(2 : ℚ)]
            TInput.absent
      ∧ evaluate Amp_only_P_funcs_by_name "P_Hollister1987" [(2 : ℚ)]
          (TInput.series [3])
        = evaluate Amp_only_P_funcs_by_name "P_Hollister1987" [(2 : ℚ)]
            TInput.absent) :=
  ⟨by simp [Amp_only_P_funcs_by_name], rfl, rfl,
   C8_ignored_value_amended "P_Hollister1987" hollister1987_eqn [2] 7 [3]
     (by simp [Amp_only_P_funcs_by_name]) rfl rfl⟩

/-- C9: a dispatch call whose dependent value is a per-sample series of
the wrong length fails with LengthMismatch before any evaluation, for
every registered equation. -/
theorem C9_series_length_mismatch {α : Type} (reg : String → Option (Eqn α))
    (id : String) (rows : List α) (eq : Eqn α) (xs : List ℚ)
    (hreg : reg id = some eq) (hlen : xs.length ≠ rows.length) :
    evaluate reg id rows (TInput.series xs) = .error .lengthMismatch := by
  simp [evaluate, hreg, lengthBad, hlen]

/-- Witness for C9: a two-entry series against a one-row table. -/
theorem C9_series_length_mismatch_witness :
    (Amp_only_P_funcs_by_name "P_Hammerstrom1986_eq1"
        = some hammerstrom1986_eq1_eqn)
    ∧ (([1, 2] : List ℚ).length ≠ ([(1 : ℚ)] : List ℚ).length)
    ∧ evaluate Amp_only_P_funcs_by_name "P_Hammerstrom1986_eq1" [(1 : ℚ)]
        (TInput.series [1, 2]) = .error .lengthMismatch :=
  ⟨by simp [Amp_only_P_funcs_by_name], by simp,
   C9_series_length_mismatch Amp_only_P_funcs_by_name "P_Hammerstrom1986_eq1"
     [1] hammerstrom1986_eq1_eqn [1, 2]
     (by simp [Amp_only_P_funcs_by_name]) (by simp)⟩

/-- C10: for every input, calling the Ridolfi2012 branch with any of
the five individual identifiers P_Ridolfi2012_1a..1e raises an
unhandled NameError (the selected-pressure local is only assigned in
the P_Ridolfi2021 sub-branch but read unconditionally at line 396), so
the per-identifier returns at lines 584-602, placed after the
unconditional return at line 582, can never produce a value. -/
theorem C10_ridolfi2012_ids_unbound_local (equationP : String)
    (h : equationP ∈
      (["P_Ridolfi2012_1a", "P_Ridolfi2012_1b", "P_Ridolfi2012_1c",
        "P_Ridolfi2012_1d", "P_Ridolfi2012_1e"] : List String))
    (samples : List RidolfiSample) :
    ridolfi2012_branch equationP samples = .error .nameErr := by
  fin_cases h <;> simp [ridolfi2012_branch]

/-- Witness for C10 at `P_Ridolfi2012_1a` on a one-sample table. -/
theorem C10_ridolfi2012_ids_unbound_local_witness :
    ("P_Ridolfi2012_1a" ∈
      (["P_Ridolfi2012_1a", "P_Ridolfi2012_1b", "P_Ridolfi2012_1c",
        "P_Ridolfi2012_1d", "P_Ridolfi2012_1e"] : List String))
    ∧ ridolfi2012_branch "P_Ridolfi2012_1a" [sampleBenign] = .error .nameErr :=
  ⟨by simp,
   C10_ridolfi2012_ids_unbound_local "P_Ridolfi2012_1a" (by simp) [sampleBenign]⟩

end Thermobar
